import Mathlib

/-!
Shallow embedding of the Pong game core (`src/pong.py`): the `Paddle` and
`Ball` data types and their movement / collision / scoring / prediction
operations, followed by theorems checking the specification's claims.

Conventions of the embedding:
* `pygame.Rect` stores integer coordinates; rectangle positions are `ℤ`
  (top-left corner), with the fixed sizes from the source constants.
* `pygame.Vector2` velocities are floats in the source; they are embedded as
  exact rationals `ℚ` (the claims are about the arithmetic structure of the
  update rules, not float rounding).
* Python `int(...)` truncates toward zero: `truncQ`.
* Python `%` on a positive modulus returns a value in `[0, modulus)`:
  `pymod a b = a - b * ⌊a / b⌋`.
-/

set_option maxRecDepth 8000

/-- Screen width constant, `WIDTH = 800` in `pong.py`. -/
def WIDTH : ℤ := 800

/-- Screen height constant, `HEIGHT = 600` in `pong.py`. -/
def HEIGHT : ℤ := 600

/-- Paddle width constant, `PADDLE_WIDTH = 12`. -/
def PADDLE_WIDTH : ℤ := 12

/-- Paddle height constant, `PADDLE_HEIGHT = 100`. -/
def PADDLE_HEIGHT : ℤ := 100

/-- Ball size constant, `BALL_SIZE = 12`. -/
def BALL_SIZE : ℤ := 12

/-- Python `int()` applied to a real number: truncation toward zero
(floor for nonnegative arguments, ceiling — written `-⌊-q⌋` — for negative
ones). Uses the executable `Rat.floor` so that concrete witnesses can be
checked by `decide`. -/
def truncQ (q : ℚ) : ℤ := if 0 ≤ q then q.floor else -(Rat.floor (-q))

/-- Python `a % b` for real `a` and positive real `b`:
the representative of `a` modulo `b` lying in `[0, b)`. -/
def pymod (a b : ℚ) : ℚ := a - b * ((a / b).floor : ℚ)

/-- The executable `Rat.floor` agrees with the floor of the archimedean
order structure on `ℚ`. -/
theorem ratFloor_eq_floor (q : ℚ) : q.floor = ⌊q⌋ := by
  rw [Rat.floor_def, Rat.floor_def']

/-- Unfolding of `truncQ` in terms of `⌊·⌋` and `⌈·⌉`. -/
theorem truncQ_eq (q : ℚ) : truncQ q = if 0 ≤ q then ⌊q⌋ else ⌈q⌉ := by
  unfold truncQ
  rw [ratFloor_eq_floor, ratFloor_eq_floor, Int.floor_neg, neg_neg]

/-- Truncation of a small quantity is zero. -/
theorem truncQ_eq_zero {q : ℚ} (h : |q| < 1) : truncQ q = 0 := by
  rw [abs_lt] at h
  rw [truncQ_eq]
  split
  · exact Int.floor_eq_zero_iff.2 ⟨by assumption, h.2⟩
  · have h0 : q ≤ 0 := le_of_not_le (by assumption)
    have h1 : ⌈q⌉ ≤ 0 := Int.ceil_le.2 (by exact_mod_cast h0)
    have h2 : (-1 : ℤ) < ⌈q⌉ := by
      by_contra hc
      push_neg at hc
      have hc' : (⌈q⌉ : ℚ) ≤ -1 := by exact_mod_cast hc
      have := Int.le_ceil q
      linarith
    omega

/-- Truncation preserves nonpositivity. -/
theorem truncQ_nonpos {q : ℚ} (h : q ≤ 0) : truncQ q ≤ 0 := by
  rw [truncQ_eq]
  split
  · have : q = 0 := le_antisymm h (by assumption)
    simp [this]
  · exact Int.ceil_le.2 (by exact_mod_cast h)

/-- Truncation preserves nonnegativity. -/
theorem truncQ_nonneg {q : ℚ} (h : 0 ≤ q) : 0 ≤ truncQ q := by
  rw [truncQ_eq, if_pos h]
  exact Int.floor_nonneg.2 h

/-- On `[0, b)` the Python modulus is the identity. -/
theorem pymod_eq_self {a b : ℚ} (hb : 0 < b) (h0 : 0 ≤ a) (h1 : a < b) :
    pymod a b = a := by
  unfold pymod
  rw [ratFloor_eq_floor]
  have : ⌊a / b⌋ = 0 := by
    refine Int.floor_eq_zero_iff.2 ⟨div_nonneg h0 hb.le, ?_⟩
    rw [div_lt_one hb]
    exact h1
  rw [this]
  push_cast
  ring

/-- The two score counters of the `Score` dataclass. -/
structure Score where
  left : ℤ
  right : ℤ
deriving DecidableEq

/-- A paddle: `pygame.Rect(x, y, PADDLE_WIDTH, PADDLE_HEIGHT)` plus its
vertical `speed` (units/second). -/
structure Paddle where
  x : ℤ
  y : ℤ
  speed : ℚ
deriving DecidableEq

namespace Paddle

/-- Rect accessor `rect.top` (= `rect.y`). -/
def top (p : Paddle) : ℤ := p.y

/-- Rect accessor `rect.bottom` (= `rect.y + height`). -/
def bottom (p : Paddle) : ℤ := p.y + PADDLE_HEIGHT

/-- Rect accessor `rect.left` (= `rect.x`). -/
def left (p : Paddle) : ℤ := p.x

/-- Rect accessor `rect.right` (= `rect.x + width`). -/
def right (p : Paddle) : ℤ := p.x + PADDLE_WIDTH

/-- Rect accessor `rect.centery` (= `rect.y + height // 2`). -/
def centery (p : Paddle) : ℤ := p.y + PADDLE_HEIGHT / 2

/-- `Paddle._clamp` (pong.py lines 69-71): `rect.top = max(0, rect.top)`
then `rect.bottom = min(HEIGHT, rect.bottom)`; in pygame, assigning `top`
sets `y` and assigning `bottom` sets `y = bottom - height`. -/
def clamp (p : Paddle) : Paddle :=
  let p1 : Paddle := { p with y := max 0 p.top }
  { p1 with y := min HEIGHT p1.bottom - PADDLE_HEIGHT }

/-- `Paddle.move_towards(target_y, dt)` (pong.py lines 50-58): early return
when the center is within 1 of the target, otherwise move by
`int(direction * speed * dt)` and clamp. -/
def move_towards (target_y : ℚ) (dt : ℚ) (p : Paddle) : Paddle :=
  let center_y : ℚ := (p.centery : ℚ)
  if |target_y - center_y| ≤ 1 then p
  else
    let direction : ℚ := if target_y > center_y then 1 else -1
    let dy : ℚ := direction * p.speed * dt
    clamp { p with y := p.y + truncQ dy }

/-- `Paddle.move_input(up, down, dt)` (pong.py lines 60-67). -/
def move_input (up down : Bool) (dt : ℚ) (p : Paddle) : Paddle :=
  let dy : ℚ :=
    if up && !down then -p.speed * dt
    else if down && !up then p.speed * dt
    else 0
  clamp { p with y := p.y + truncQ dy }

end Paddle

/-- A ball: `pygame.Rect(x, y, BALL_SIZE, BALL_SIZE)`, velocity vector
`vel = (vx, vy)`, and the `base_speed` scalar fixed at construction. -/
structure Ball where
  x : ℤ
  y : ℤ
  vx : ℚ
  vy : ℚ
  base_speed : ℚ
deriving DecidableEq

namespace Ball

/-- Rect accessor `rect.top`. -/
def top (b : Ball) : ℤ := b.y

/-- Rect accessor `rect.bottom`. -/
def bottom (b : Ball) : ℤ := b.y + BALL_SIZE

/-- Rect accessor `rect.left`. -/
def left (b : Ball) : ℤ := b.x

/-- Rect accessor `rect.right`. -/
def right (b : Ball) : ℤ := b.x + BALL_SIZE

/-- Rect accessor `rect.centerx` (= `rect.x + size // 2`). -/
def centerx (b : Ball) : ℤ := b.x + BALL_SIZE / 2

/-- Rect accessor `rect.centery` (= `rect.y + size // 2`). -/
def centery (b : Ball) : ℤ := b.y + BALL_SIZE / 2

/-- `Ball.reset(direction)` (pong.py lines 87-91): recenter at
`(WIDTH // 2, HEIGHT // 2)` (assigning `rect.center` sets the top-left to
center minus half size), set `vel.x = direction * base_speed` and
`vel.y = base_speed * angle` where `angle = random.uniform(-0.35, 0.35)` is
passed explicitly here. -/
def reset (direction : ℤ) (angle : ℚ) (b : Ball) : Ball :=
  { b with
    x := WIDTH / 2 - BALL_SIZE / 2
    y := HEIGHT / 2 - BALL_SIZE / 2
    vx := (direction : ℚ) * b.base_speed
    vy := b.base_speed * angle }

/-- `Ball.update(dt)` (pong.py lines 93-102): move by the truncated
displacement on each axis, then wall collisions: if `top <= 0` snap the top
to 0 and invert `vel.y`; elif `bottom >= HEIGHT` snap the bottom to `HEIGHT`
and invert `vel.y`. -/
def update (dt : ℚ) (b : Ball) : Ball :=
  let b1 : Ball := { b with
    x := b.x + truncQ (b.vx * dt)
    y := b.y + truncQ (b.vy * dt) }
  if b1.top ≤ 0 then { b1 with y := 0, vy := -b1.vy }
  else if b1.bottom ≥ HEIGHT then { b1 with y := HEIGHT - BALL_SIZE, vy := -b1.vy }
  else b1

/-- `pygame.Rect.colliderect`: true iff the rectangles strictly overlap
(touching edges do not collide). -/
def colliderect (b : Ball) (p : Paddle) : Bool :=
  decide (b.left < p.right) && decide (b.top < p.bottom) &&
  decide (p.left < b.right) && decide (p.top < b.bottom)

/-- `Ball.collide_paddle(paddle)` (pong.py lines 104-121): no-op without an
intersection; otherwise snap the ball flush to the paddle edge on the side
the ball came from, invert `vel.x`, add spin
`(centery - paddle.centery) / (PADDLE_HEIGHT / 2) * 220` to `vel.y` clamped
to `[-520, 520]`, then multiply `vel.x` by `1.04` and clamp to
`[-720, 720]`. -/
def collide_paddle (p : Paddle) (b : Ball) : Ball :=
  if colliderect b p then
    let b1 : Ball :=
      if b.vx < 0 then { b with x := p.right }
      else { b with x := p.left - BALL_SIZE }
    let b2 : Ball := { b1 with vx := -b1.vx }
    let offset : ℚ := ((b2.centery : ℚ) - (p.centery : ℚ)) / ((PADDLE_HEIGHT : ℚ) / 2)
    let spin : ℚ := offset * 220
    let b3 : Ball := { b2 with vy := max (min (b2.vy + spin) 520) (-520) }
    let b4 : Ball := { b3 with vx := b3.vx * 1.04 }
    { b4 with vx := max (min b4.vx 720) (-720) }
  else b

end Ball

namespace Game

/-- Scoring step of `Game._update` (pong.py lines 184-190): if the ball's
right edge is left of the screen, the right score increments and the ball is
reset serving rightward (`direction = 1`); elif the ball's left edge is past
the screen width, the left score increments and the ball is reset serving
leftward (`direction = -1`). The random serve angle is passed explicitly. -/
def scoring (angle : ℚ) (ball : Ball) (s : Score) : Ball × Score :=
  if ball.right < 0 then (ball.reset 1 angle, { s with right := s.right + 1 })
  else if ball.left > WIDTH then (ball.reset (-1) angle, { s with left := s.left + 1 })
  else (ball, s)

/-- `Game._predict_ball_y_at_x(x)` (pong.py lines 214-232): starting from
the ball's center and velocity, return the current center y when `vel.x = 0`
or when the time to reach `x` is nonpositive; otherwise simulate
`y + vel.y * time_to_x` and fold into `[0, HEIGHT]` by reflection with
period `2 * HEIGHT`. -/
def predict_ball_y_at_x (b : Ball) (x : ℤ) : ℚ :=
  let posx : ℚ := (b.centerx : ℚ)
  let posy : ℚ := (b.centery : ℚ)
  if b.vx = 0 then posy
  else
    let time_to_x : ℚ := ((x : ℚ) - posx) / b.vx
    if time_to_x ≤ 0 then posy
    else
      let simulated_y : ℚ := posy + b.vy * time_to_x
      let period : ℚ := 2 * (HEIGHT : ℚ)
      let m : ℚ := pymod simulated_y period
      if m ≤ (HEIGHT : ℚ) then m else period - m

end Game

/-- The clamp step always establishes the vertical bounds. -/
theorem clamp_bounds (p : Paddle) :
    0 ≤ (Paddle.clamp p).top ∧ (Paddle.clamp p).bottom ≤ HEIGHT := by
  simp only [Paddle.clamp, Paddle.top, Paddle.bottom, HEIGHT, PADDLE_HEIGHT]
  omega

/-- C4: after the clamp step of any movement operation (`move_towards` with
any target and `dt`, or `move_input` with any key booleans and `dt`), the
paddle satisfies `0 ≤ top` and `bottom ≤ HEIGHT`; `move_towards` either
returns the paddle unchanged (its early-return path, which has no clamp
step) or produces a clamped, in-bounds paddle. -/
theorem paddle_bounds (p : Paddle) (target dt : ℚ) (up down : Bool) :
    (0 ≤ (Paddle.clamp p).top ∧ (Paddle.clamp p).bottom ≤ HEIGHT) ∧
    (0 ≤ (Paddle.move_input up down dt p).top ∧
      (Paddle.move_input up down dt p).bottom ≤ HEIGHT) ∧
    (Paddle.move_towards target dt p = p ∨
      (0 ≤ (Paddle.move_towards target dt p).top ∧
        (Paddle.move_towards target dt p).bottom ≤ HEIGHT)) := by
  refine ⟨clamp_bounds p, ?_, ?_⟩
  · unfold Paddle.move_input
    exact clamp_bounds _
  · unfold Paddle.move_towards
    dsimp only
    split
    · exact Or.inl rfl
    · exact Or.inr (clamp_bounds _)

/-- C6: when the ball's horizontal velocity is zero, the prediction returns
the ball's current center y unchanged (the division by `vel.x` is guarded
and never executed). -/
theorem predict_zero_vx (b : Ball) (x : ℤ) (h : b.vx = 0) :
    Game.predict_ball_y_at_x b x = (b.centery : ℚ) := by
  unfold Game.predict_ball_y_at_x
  rw [if_pos h]

/-- Witness for C6: a concrete stationary-in-x ball. -/
theorem predict_zero_vx_witness :
    (⟨100, 200, 0, 50, 420⟩ : Ball).vx = 0 ∧
    Game.predict_ball_y_at_x ⟨100, 200, 0, 50, 420⟩ 700 =
      ((⟨100, 200, 0, 50, 420⟩ : Ball).centery : ℚ) :=
  ⟨rfl, predict_zero_vx ⟨100, 200, 0, 50, 420⟩ 700 rfl⟩

/-- C8: without a rectangle intersection, `collide_paddle` is a no-op: the
whole ball state (position and both velocity components) is unchanged. -/
theorem collide_paddle_no_intersection (b : Ball) (p : Paddle)
    (h : Ball.colliderect b p = false) : Ball.collide_paddle p b = b := by
  unfold Ball.collide_paddle
  rw [h]
  simp

/-- Witness for C8: a ball well to the right of a left paddle. -/
theorem collide_paddle_no_intersection_witness :
    Ball.colliderect ⟨500, 300, -100, 10, 420⟩ ⟨24, 250, 520⟩ = false ∧
    Ball.collide_paddle ⟨24, 250, 520⟩ ⟨500, 300, -100, 10, 420⟩ =
      ⟨500, 300, -100, 10, 420⟩ :=
  ⟨by decide, collide_paddle_no_intersection _ _ (by decide)⟩

/-- The speed clamp `max (min v c) (-c)` stays within `[-c, c]`. -/
theorem clampQ_abs_le {v c : ℚ} (hc : 0 ≤ c) : |max (min v c) (-c)| ≤ c := by
  rw [abs_le]
  exact ⟨le_max_right _ _, max_le (min_le_right _ _) (by linarith)⟩

/-- The speed clamp of a positive value is positive (for a positive cap). -/
theorem clampQ_pos {v c : ℚ} (hv : 0 < v) (hc : 0 < c) :
    0 < max (min v c) (-c) :=
  lt_max_of_lt_left (lt_min hv hc)

/-- The speed clamp of a negative value is negative (for a positive cap). -/
theorem clampQ_neg {v c : ℚ} (hv : v < 0) (hc : 0 < c) :
    max (min v c) (-c) < 0 :=
  max_lt (lt_of_le_of_lt (min_le_left _ _) hv) (by linarith)

/-- C1: on an intersection with the ball moving left, `collide_paddle`
leaves the ball's left edge exactly on the paddle's right edge, flips the
horizontal velocity to positive, and bounds `|vel.x| ≤ 720` and
`|vel.y| ≤ 520`; symmetrically when moving right, the ball's right edge
lands on the paddle's left edge and the velocity flips to negative, with
the same bounds. -/
theorem collide_paddle_flush (b : Ball) (p : Paddle)
    (h : Ball.colliderect b p = true) :
    (b.vx < 0 →
      (Ball.collide_paddle p b).left = p.right ∧
      0 < (Ball.collide_paddle p b).vx ∧
      |(Ball.collide_paddle p b).vx| ≤ 720 ∧
      |(Ball.collide_paddle p b).vy| ≤ 520) ∧
    (0 < b.vx →
      (Ball.collide_paddle p b).right = p.left ∧
      (Ball.collide_paddle p b).vx < 0 ∧
      |(Ball.collide_paddle p b).vx| ≤ 720 ∧
      |(Ball.collide_paddle p b).vy| ≤ 520) := by
  unfold Ball.collide_paddle
  rw [h]
  dsimp only
  rw [if_pos rfl]
  constructor
  · intro hv
    rw [if_pos hv]
    refine ⟨rfl, ?_, ?_, ?_⟩
    · exact clampQ_pos (by nlinarith) (by norm_num)
    · exact clampQ_abs_le (by norm_num)
    · exact clampQ_abs_le (by norm_num)
  · intro hv
    rw [if_neg (by linarith : ¬b.vx < 0)]
    refine ⟨?_, ?_, ?_, ?_⟩
    · simp only [Ball.right, BALL_SIZE]
      omega
    · exact clampQ_neg (by nlinarith) (by norm_num)
    · exact clampQ_abs_le (by norm_num)
    · exact clampQ_abs_le (by norm_num)

/-- Witness for C1: both travel directions on concrete intersecting
states. -/
theorem collide_paddle_flush_witness :
    Ball.colliderect ⟨30, 280, -300, 40, 420⟩ ⟨24, 250, 520⟩ = true ∧
    (-300 : ℚ) < 0 ∧
    (Ball.collide_paddle ⟨24, 250, 520⟩ ⟨30, 280, -300, 40, 420⟩).left =
      Paddle.right ⟨24, 250, 520⟩ ∧
    Ball.colliderect ⟨760, 280, 300, 40, 420⟩ ⟨764, 250, 500⟩ = true ∧
    (0 : ℚ) < 300 ∧
    (Ball.collide_paddle ⟨764, 250, 500⟩ ⟨760, 280, 300, 40, 420⟩).right =
      Paddle.left ⟨764, 250, 500⟩ := by
  refine ⟨by decide, by norm_num, ?_, by decide, by norm_num, ?_⟩
  · exact ((collide_paddle_flush ⟨30, 280, -300, 40, 420⟩ ⟨24, 250, 520⟩
      (by decide)).1 (by norm_num)).1
  · exact ((collide_paddle_flush ⟨760, 280, 300, 40, 420⟩ ⟨764, 250, 500⟩
      (by decide)).2 (by norm_num)).1

/-- C10: a ball with zero horizontal velocity that intersects a paddle
takes the moving-right branch: its right edge is snapped to the paddle's
left edge and the horizontal velocity is still 0 after the negation, the
1.04 speedup, and the clamp. -/
theorem collide_paddle_zero_vx (b : Ball) (p : Paddle) (hv : b.vx = 0)
    (h : Ball.colliderect b p = true) :
    (Ball.collide_paddle p b).right = p.left ∧
    (Ball.collide_paddle p b).vx = 0 := by
  unfold Ball.collide_paddle
  rw [h]
  dsimp only
  rw [if_pos rfl, if_neg (by rw [hv]; exact lt_irrefl 0)]
  constructor
  · simp only [Ball.right, BALL_SIZE]
    omega
  · rw [hv]
    norm_num

/-- Witness for C10: a stationary-in-x ball overlapping a paddle. -/
theorem collide_paddle_zero_vx_witness :
    (⟨30, 280, 0, 40, 420⟩ : Ball).vx = 0 ∧
    Ball.colliderect ⟨30, 280, 0, 40, 420⟩ ⟨24, 250, 520⟩ = true ∧
    (Ball.collide_paddle ⟨24, 250, 520⟩ ⟨30, 280, 0, 40, 420⟩).right =
      Paddle.left ⟨24, 250, 520⟩ ∧
    (Ball.collide_paddle ⟨24, 250, 520⟩ ⟨30, 280, 0, 40, 420⟩).vx = 0 := by
  refine ⟨rfl, by decide, ?_, ?_⟩
  · exact (collide_paddle_zero_vx _ _ rfl (by decide)).1
  · exact (collide_paddle_zero_vx _ _ rfl (by decide)).2

/-- C3: if the ball's right edge is left of the screen at the scoring
check, the right score increments by exactly 1 (left unchanged), the ball
recenters on the screen center, and the serve velocity is `+base_speed`;
symmetrically, a ball whose left edge is past the screen width increments
the left score and serves with velocity `-base_speed`. -/
theorem scoring_spec (ball : Ball) (s : Score) (angle : ℚ) :
    (ball.right < 0 →
      (Game.scoring angle ball s).2.right = s.right + 1 ∧
      (Game.scoring angle ball s).2.left = s.left ∧
      (Game.scoring angle ball s).1.centerx = WIDTH / 2 ∧
      (Game.scoring angle ball s).1.centery = HEIGHT / 2 ∧
      (Game.scoring angle ball s).1.vx = ball.base_speed) ∧
    (WIDTH < ball.left →
      (Game.scoring angle ball s).2.left = s.left + 1 ∧
      (Game.scoring angle ball s).2.right = s.right ∧
      (Game.scoring angle ball s).1.centerx = WIDTH / 2 ∧
      (Game.scoring angle ball s).1.centery = HEIGHT / 2 ∧
      (Game.scoring angle ball s).1.vx = -ball.base_speed) := by
  constructor
  · intro h
    unfold Game.scoring
    rw [if_pos h]
    refine ⟨rfl, rfl, by simp only [Ball.reset, Ball.centerx]; decide,
      by simp only [Ball.reset, Ball.centery]; decide, ?_⟩
    simp only [Ball.reset]
    push_cast
    ring
  · intro h
    have hr : ¬ ball.right < 0 := by
      simp only [Ball.right, Ball.left, WIDTH, BALL_SIZE] at *
      omega
    unfold Game.scoring
    rw [if_neg hr, if_pos h]
    refine ⟨rfl, rfl, by simp only [Ball.reset, Ball.centerx]; decide,
      by simp only [Ball.reset, Ball.centery]; decide, ?_⟩
    simp only [Ball.reset]
    push_cast
    ring

/-- Witness for C3: concrete exits on both sides. -/
theorem scoring_spec_witness :
    (⟨-20, 300, -300, 0, 420⟩ : Ball).right < 0 ∧
    (Game.scoring (1/10) ⟨-20, 300, -300, 0, 420⟩ ⟨2, 3⟩).2.right = 3 + 1 ∧
    WIDTH < (⟨810, 300, 300, 0, 420⟩ : Ball).left ∧
    (Game.scoring (1/10) ⟨810, 300, 300, 0, 420⟩ ⟨2, 3⟩).2.left = 2 + 1 := by
  refine ⟨by decide, ?_, by decide, ?_⟩
  · exact ((scoring_spec ⟨-20, 300, -300, 0, 420⟩ ⟨2, 3⟩ (1/10)).1 (by decide)).1
  · exact ((scoring_spec ⟨810, 300, 300, 0, 420⟩ ⟨2, 3⟩ (1/10)).2 (by decide)).1

/-- C7: after `reset(direction = 1)` with any drawn angle factor in
`[-0.35, 0.35]` and a positive base speed, the horizontal velocity is
positive with magnitude `base_speed`, the ball's center is the screen
center, and the vertical velocity is `base_speed` times a factor in
`[-0.35, 0.35]`. -/
theorem reset_serve (b : Ball) (angle : ℚ) (h1 : -0.35 ≤ angle)
    (h2 : angle ≤ 0.35) (h3 : 0 < b.base_speed) :
    0 < (Ball.reset 1 angle b).vx ∧
    |(Ball.reset 1 angle b).vx| = b.base_speed ∧
    (Ball.reset 1 angle b).centerx = WIDTH / 2 ∧
    (Ball.reset 1 angle b).centery = HEIGHT / 2 ∧
    ∃ f, (Ball.reset 1 angle b).vy = b.base_speed * f ∧
      -0.35 ≤ f ∧ f ≤ 0.35 := by
  have hvx : (Ball.reset 1 angle b).vx = b.base_speed := by
    simp only [Ball.reset]
    push_cast
    ring
  refine ⟨?_, ?_, by simp only [Ball.reset, Ball.centerx]; decide,
    by simp only [Ball.reset, Ball.centery]; decide, angle, rfl, h1, h2⟩
  · rw [hvx]
    exact h3
  · rw [hvx]
    exact abs_of_pos h3

/-- Witness for C7: a concrete ball and angle draw. -/
theorem reset_serve_witness :
    (-0.35 : ℚ) ≤ 1/10 ∧ (1/10 : ℚ) ≤ 0.35 ∧
    (0 : ℚ) < (⟨0, 0, 0, 0, 420⟩ : Ball).base_speed ∧
    0 < (Ball.reset 1 (1/10) ⟨0, 0, 0, 0, 420⟩).vx := by
  refine ⟨by norm_num, by norm_num, by norm_num, ?_⟩
  exact (reset_serve ⟨0, 0, 0, 0, 420⟩ (1/10) (by norm_num) (by norm_num)
    (by norm_num)).1

/-- Counterexample to C2 as stated: a ball whose top edge is at 0 moving
downward slowly (displacement truncates to 0) still satisfies the wall
condition after the move, so `update` flips its vertical velocity to a
negative value even though it was heading away from the wall. -/
theorem update_bounce_counterexample :
    (⟨100, 0, 0, 100, 420⟩ : Ball).top ≤ 0 ∧ (0 : ℚ) < 1/200 ∧
    (Ball.update (1/200) ⟨100, 0, 0, 100, 420⟩).vy < 0 := by
  refine ⟨by decide, by norm_num, ?_⟩
  with_unfolding_all decide

/-- C2 amended: a ball with `top ≤ 0` that is also moving up (`vy ≤ 0`) has
nonnegative vertical velocity after `update` (any `dt > 0`); symmetrically,
a ball with `bottom ≥ HEIGHT` moving down (`vy ≥ 0`) has nonpositive
vertical velocity after the call. -/
theorem update_wall_bounce (b : Ball) (dt : ℚ) (hdt : 0 < dt) :
    (b.top ≤ 0 → b.vy ≤ 0 → 0 ≤ (Ball.update dt b).vy) ∧
    (HEIGHT ≤ b.bottom → 0 ≤ b.vy → (Ball.update dt b).vy ≤ 0) := by
  constructor
  · intro ht hv
    simp only [Ball.top] at ht
    have hmul : b.vy * dt ≤ 0 := by nlinarith
    have hd : truncQ (b.vy * dt) ≤ 0 := truncQ_nonpos hmul
    unfold Ball.update
    dsimp only [Ball.top, Ball.bottom]
    rw [if_pos (by omega : b.y + truncQ (b.vy * dt) ≤ 0)]
    dsimp only
    linarith
  · intro hb hv
    simp only [Ball.bottom, BALL_SIZE, HEIGHT] at hb
    have hmul : 0 ≤ b.vy * dt := mul_nonneg hv hdt.le
    have hd : 0 ≤ truncQ (b.vy * dt) := truncQ_nonneg hmul
    unfold Ball.update
    dsimp only [Ball.top, Ball.bottom]
    rw [if_neg (by omega : ¬ b.y + truncQ (b.vy * dt) ≤ 0),
        if_pos (by simp only [HEIGHT, BALL_SIZE]; omega :
          b.y + truncQ (b.vy * dt) + BALL_SIZE ≥ HEIGHT)]
    dsimp only
    linarith

/-- Witness for the amended C2: both walls on concrete states. -/
theorem update_wall_bounce_witness :
    (0 : ℚ) < 1/60 ∧
    (⟨100, 0, 0, -50, 420⟩ : Ball).top ≤ 0 ∧
    (⟨100, 0, 0, -50, 420⟩ : Ball).vy ≤ 0 ∧
    0 ≤ (Ball.update (1/60) ⟨100, 0, 0, -50, 420⟩).vy ∧
    HEIGHT ≤ (⟨100, 588, 0, 50, 420⟩ : Ball).bottom ∧
    0 ≤ (⟨100, 588, 0, 50, 420⟩ : Ball).vy ∧
    (Ball.update (1/60) ⟨100, 588, 0, 50, 420⟩).vy ≤ 0 := by
  refine ⟨by norm_num, by decide, by norm_num, ?_, by decide, by norm_num, ?_⟩
  · exact (update_wall_bounce ⟨100, 0, 0, -50, 420⟩ (1/60) (by norm_num)).1
      (by decide) (by norm_num)
  · exact (update_wall_bounce ⟨100, 588, 0, 50, 420⟩ (1/60) (by norm_num)).2
      (by decide) (by norm_num)

/-- C5: with the simulation path taken (nonzero horizontal velocity and a
positive time to the target x), the prediction equals the triangular-wave
fold of the unreflected simulated y with period `2 * HEIGHT`; in particular
a simulated y of exactly `HEIGHT + k` for `0 < k < HEIGHT` reflects to
`HEIGHT - k`. -/
theorem predict_triangular (b : Ball) (x : ℤ) (k : ℚ)
    (hvx : b.vx ≠ 0)
    (ht : 0 < (((x : ℚ)) - (b.centerx : ℚ)) / b.vx) :
    Game.predict_ball_y_at_x b x =
      (if pymod ((b.centery : ℚ) + b.vy * (((x : ℚ) - (b.centerx : ℚ)) / b.vx))
            (2 * (HEIGHT : ℚ)) ≤ (HEIGHT : ℚ)
       then pymod ((b.centery : ℚ) + b.vy * (((x : ℚ) - (b.centerx : ℚ)) / b.vx))
            (2 * (HEIGHT : ℚ))
       else 2 * (HEIGHT : ℚ) -
          pymod ((b.centery : ℚ) + b.vy * (((x : ℚ) - (b.centerx : ℚ)) / b.vx))
            (2 * (HEIGHT : ℚ))) ∧
    ((b.centery : ℚ) + b.vy * (((x : ℚ) - (b.centerx : ℚ)) / b.vx) =
        (HEIGHT : ℚ) + k →
      0 < k → k < (HEIGHT : ℚ) →
      Game.predict_ball_y_at_x b x = (HEIGHT : ℚ) - k) := by
  have hH : (HEIGHT : ℚ) = 600 := by norm_num [HEIGHT]
  have hpred : Game.predict_ball_y_at_x b x =
      (if pymod ((b.centery : ℚ) + b.vy * (((x : ℚ) - (b.centerx : ℚ)) / b.vx))
            (2 * (HEIGHT : ℚ)) ≤ (HEIGHT : ℚ)
       then pymod ((b.centery : ℚ) + b.vy * (((x : ℚ) - (b.centerx : ℚ)) / b.vx))
            (2 * (HEIGHT : ℚ))
       else 2 * (HEIGHT : ℚ) -
          pymod ((b.centery : ℚ) + b.vy * (((x : ℚ) - (b.centerx : ℚ)) / b.vx))
            (2 * (HEIGHT : ℚ))) := by
    unfold Game.predict_ball_y_at_x
    dsimp only
    rw [if_neg hvx, if_neg (not_le.2 ht)]
  refine ⟨hpred, ?_⟩
  intro hsim hk0 hk1
  rw [hpred, hsim]
  have hmod : pymod ((HEIGHT : ℚ) + k) (2 * (HEIGHT : ℚ)) = (HEIGHT : ℚ) + k := by
    apply pymod_eq_self
    · linarith
    · linarith
    · linarith
  rw [hmod, if_neg (by linarith : ¬ (HEIGHT : ℚ) + k ≤ (HEIGHT : ℚ))]
  ring

/-- Witness for C5: a ball whose simulated y overshoots the bottom wall by
150 is predicted at 450. -/
theorem predict_triangular_witness :
    (⟨94, 94, 100, 650, 420⟩ : Ball).vx ≠ 0 ∧
    0 < (((200 : ℤ) : ℚ) - ((Ball.centerx ⟨94, 94, 100, 650, 420⟩ : ℤ) : ℚ)) /
        (⟨94, 94, 100, 650, 420⟩ : Ball).vx ∧
    Game.predict_ball_y_at_x ⟨94, 94, 100, 650, 420⟩ 200 = (HEIGHT : ℚ) - 150 := by
  have hvx : (⟨94, 94, 100, 650, 420⟩ : Ball).vx ≠ 0 := by norm_num
  have ht : 0 < (((200 : ℤ) : ℚ) - ((Ball.centerx ⟨94, 94, 100, 650, 420⟩ : ℤ) : ℚ)) /
      (⟨94, 94, 100, 650, 420⟩ : Ball).vx := by
    with_unfolding_all decide
  refine ⟨hvx, ht, ?_⟩
  exact (predict_triangular ⟨94, 94, 100, 650, 420⟩ 200 150 hvx ht).2
    (by with_unfolding_all decide) (by norm_num) (by norm_num [HEIGHT])

/-- The clamp step is the identity on an in-bounds paddle. -/
theorem clamp_eq_self {p : Paddle} (h1 : 0 ≤ p.top) (h2 : p.bottom ≤ HEIGHT) :
    Paddle.clamp p = p := by
  simp only [Paddle.top] at h1
  simp only [Paddle.bottom] at h2
  unfold Paddle.clamp
  dsimp only [Paddle.top, Paddle.bottom]
  have hy : min HEIGHT (max 0 p.y + PADDLE_HEIGHT) - PADDLE_HEIGHT = p.y := by
    omega
  rw [hy]

/-- Counterexample to C9 as stated: an out-of-bounds paddle moves even
though the truncated displacement is zero, because the clamp step pulls it
back on screen. -/
theorem truncation_counterexample :
    Paddle.speed ⟨24, -50, 520⟩ * (1/1000) < 1 ∧
    1 < |(300 : ℚ) - ((Paddle.centery ⟨24, -50, 520⟩ : ℤ) : ℚ)| ∧
    Paddle.move_towards 300 (1/1000) ⟨24, -50, 520⟩ ≠ ⟨24, -50, 520⟩ := by
  refine ⟨?_, ?_, ?_⟩ <;> with_unfolding_all decide

/-- C9 amended: the per-frame updates truncate the displacement toward zero,
so an in-bounds state does not move when the displacement magnitude is below
one pixel: an in-bounds paddle with the target more than 1 away and
`0 ≤ speed * dt < 1` is unchanged by `move_towards`; `Ball.update` leaves
`x` unchanged whenever `|vel.x * dt| < 1`, and leaves `y` unchanged whenever
`|vel.y * dt| < 1` and the ball is inside the vertical play area. -/
theorem truncation_updates (p : Paddle) (b : Ball) (target dtp dtb : ℚ) :
    (0 ≤ p.speed → 0 ≤ dtp → p.speed * dtp < 1 → 0 ≤ p.top →
      p.bottom ≤ HEIGHT → 1 < |target - (p.centery : ℚ)| →
      Paddle.move_towards target dtp p = p) ∧
    (|b.vx * dtb| < 1 → (Ball.update dtb b).x = b.x) ∧
    (|b.vy * dtb| < 1 → 0 ≤ b.top → b.bottom ≤ HEIGHT →
      (Ball.update dtb b).y = b.y) := by
  refine ⟨?_, ?_, ?_⟩
  · intro hs hdt hsd htop hbot htar
    unfold Paddle.move_towards
    dsimp only
    rw [if_neg (not_le.2 htar)]
    have habs : |(if target > ((p.centery : ℤ) : ℚ) then (1 : ℚ) else -1) *
        p.speed * dtp| < 1 := by
      rw [abs_mul, abs_mul]
      have h1 : |(if target > ((p.centery : ℤ) : ℚ) then (1 : ℚ) else -1)| = 1 := by
        split <;> norm_num
      rw [h1, one_mul, abs_of_nonneg hs, abs_of_nonneg hdt]
      exact hsd
    rw [truncQ_eq_zero habs, add_zero]
    exact clamp_eq_self htop hbot
  · intro hx
    unfold Ball.update
    dsimp only [Ball.top, Ball.bottom]
    rw [truncQ_eq_zero hx, add_zero]
    split
    · rfl
    · split
      · rfl
      · rfl
  · intro hy htop hbot
    simp only [Ball.top] at htop
    simp only [Ball.bottom, BALL_SIZE, HEIGHT] at hbot
    unfold Ball.update
    dsimp only [Ball.top, Ball.bottom]
    rw [truncQ_eq_zero hy, add_zero]
    split
    · next hc =>
      dsimp only
      omega
    · split
      · next hc1 hc2 =>
        dsimp only
        simp only [HEIGHT, BALL_SIZE] at hc2 ⊢
        omega
      · rfl

/-- Witness for the amended C9: a concrete slow paddle and slow ball. -/
theorem truncation_updates_witness :
    0 ≤ Paddle.speed ⟨24, 100, 520⟩ ∧ (0 : ℚ) ≤ 1/1000 ∧
    Paddle.speed ⟨24, 100, 520⟩ * (1/1000) < 1 ∧
    0 ≤ Paddle.top ⟨24, 100, 520⟩ ∧ Paddle.bottom ⟨24, 100, 520⟩ ≤ HEIGHT ∧
    1 < |(300 : ℚ) - ((Paddle.centery ⟨24, 100, 520⟩ : ℤ) : ℚ)| ∧
    Paddle.move_towards 300 (1/1000) ⟨24, 100, 520⟩ = ⟨24, 100, 520⟩ ∧
    |(⟨100, 300, 50, 50, 420⟩ : Ball).vx * (1/100)| < 1 ∧
    (Ball.update (1/100) ⟨100, 300, 50, 50, 420⟩).x = 100 ∧
    (Ball.update (1/100) ⟨100, 300, 50, 50, 420⟩).y = 300 := by
  refine ⟨by norm_num, by norm_num, by with_unfolding_all decide, by decide,
    by decide, by with_unfolding_all decide, ?_, by with_unfolding_all decide,
    ?_, ?_⟩
  · exact (truncation_updates ⟨24, 100, 520⟩ ⟨100, 300, 50, 50, 420⟩ 300
      (1/1000) (1/100)).1 (by norm_num) (by norm_num)
      (by with_unfolding_all decide) (by decide) (by decide)
      (by with_unfolding_all decide)
  · exact (truncation_updates ⟨24, 100, 520⟩ ⟨100, 300, 50, 50, 420⟩ 300
      (1/1000) (1/100)).2.1 (by with_unfolding_all decide)
  · exact (truncation_updates ⟨24, 100, 520⟩ ⟨100, 300, 50, 50, 420⟩ 300
      (1/1000) (1/100)).2.2 (by with_unfolding_all decide) (by decide)
      (by decide)
